import Mathlib

/-!
Verification development for the map annotation application (`src/App.tsx`).

The definitions below are a shallow embedding of the source:
JavaScript numbers are modelled by `ℝ` (with `Real.sqrt`, trigonometric
functions and `Real.rpow` standing for `Math.sqrt`, `Math.sin/cos/atan2`
and `Math.pow`), except inside `focusOnLayer`, whose bounding-box fold
deliberately starts from the IEEE sentinels `Infinity` / `-Infinity` and can
therefore produce `NaN`; that function is embedded over an explicit model
`JSNum` of the IEEE special values with exact rational finite values.

React `useState` cells are gathered into explicit state records, and each
event handler becomes a pure function from the old state (plus the event
payload) to the new state.
-/

noncomputable section

open Real

/-- `Math.atan2(y, x)`, modelled as the argument of the complex number
`x + y·i`, which agrees with `atan2` on all of `ℝ × ℝ`
(range `(-π, π]`, `atan2 0 0 = 0`). -/
def atan2 (y x : ℝ) : ℝ := Complex.arg ⟨x, y⟩

/-- `calculateDistance` from `App.tsx`: haversine great-circle distance in
kilometers with Earth radius 6371 km. -/
def calculateDistance (point1 point2 : ℝ × ℝ) : ℝ :=
  let R : ℝ := 6371
  let dLat := (point2.2 - point1.2) * π / 180
  let dLon := (point2.1 - point1.1) * π / 180
  let a :=
    Real.sin (dLat / 2) * Real.sin (dLat / 2) +
      Real.cos (point1.2 * π / 180) * Real.cos (point2.2 * π / 180) *
        Real.sin (dLon / 2) * Real.sin (dLon / 2)
  let c := 2 * atan2 (Real.sqrt a) (Real.sqrt (1 - a))
  R * c

/-- `calculatePolygonArea` from `App.tsx`: shoelace-style sum over consecutive
vertex pairs, corrected per segment by `cos(meanLatitude)` and the Earth
radius; absolute value halved.  The loop over `i < polygon.length - 1`
visiting `(p[i], p[i+1])` is rendered as a fold over `polygon.zip polygon.tail`. -/
def calculatePolygonArea (polygon : List (ℝ × ℝ)) : ℝ :=
  let R : ℝ := 6371
  let area := (polygon.zip polygon.tail).foldl
    (fun acc pq =>
      acc + ((pq.2.1 - pq.1.1) * (pq.2.2 + pq.1.2) * π / 180) * R * R *
        Real.cos (((pq.1.2 + pq.2.2) / 2) * π / 180))
    0
  |area| / 2

/-- `calculateAzimuth` from `App.tsx`: initial spherical bearing in degrees,
normalized into `[0, 360)` by adding 360 to a negative raw value. -/
def calculateAzimuth (point1 point2 : ℝ × ℝ) : ℝ :=
  let dLon := (point2.1 - point1.1) * π / 180
  let lat1 := point1.2 * π / 180
  let lat2 := point2.2 * π / 180
  let y := Real.sin dLon * Real.cos lat2
  let x := Real.cos lat1 * Real.sin lat2 - Real.sin lat1 * Real.cos lat2 * Real.cos dLon
  let azimuth := atan2 y x * 180 / π
  if azimuth < 0 then azimuth + 360 else azimuth

/-- The `while (normalizedEndAngle <= startAngle) normalizedEndAngle += 2 * Math.PI`
loop from `createSectorPolygon`.  Terminates because each pass shrinks
`startAngle - endAngle` by `2π`. -/
def normalizeEndAngle (startAngle endAngle : ℝ) : ℝ :=
  if endAngle ≤ startAngle then normalizeEndAngle startAngle (endAngle + 2 * π)
  else endAngle
termination_by Nat.ceil ((startAngle - endAngle) / (2 * π) + 1)
decreasing_by
  have hπ : (0:ℝ) < 2 * π := by positivity
  have hx : (0:ℝ) ≤ (startAngle - endAngle) / (2 * π) := by
    apply div_nonneg _ hπ.le
    linarith
  have harg : (startAngle - (endAngle + 2 * π)) / (2 * π) + 1 =
      (startAngle - endAngle) / (2 * π) := by
    field_simp
    ring
  rw [harg]
  calc Nat.ceil ((startAngle - endAngle) / (2 * π))
      < Nat.ceil ((startAngle - endAngle) / (2 * π)) + 1 := Nat.lt_succ_self _
    _ = Nat.ceil ((startAngle - endAngle) / (2 * π) + 1) := by
        rw [Nat.ceil_add_one hx]

/-- `createSectorPolygon` from `App.tsx`: the list `[center]` followed by the
33 arc points pushed by the loop `for (let i = 0; i <= 32; i++)`. -/
def createSectorPolygon (center : ℝ × ℝ) (radius startAngle endAngle : ℝ) :
    List (ℝ × ℝ) :=
  let numPoints : ℕ := 32
  let normalizedEndAngle := normalizeEndAngle startAngle endAngle
  center :: (List.range (numPoints + 1)).map (fun i =>
    let angle := startAngle + (normalizedEndAngle - startAngle) * ((i : ℝ) / numPoints)
    (center.1 + radius * Real.cos angle, center.2 + radius * Real.sin angle))

/-- The `type` field of a `Layer` in `App.tsx`. -/
inductive LayerType where
  | point
  | polygon
  | line
  | sector
  | distance
  | area
  | azimuth
deriving DecidableEq

/-- One element of a layer's `data` array.  Depending on the layer `type`,
an element carries a `position`, a `polygon` ring, or a `path`. -/
inductive LayerItem (α : Type) where
  | position (p : α × α)
  | polygon (ring : List (α × α))
  | path (pts : List (α × α))
deriving DecidableEq

/-- A `Layer` record from `App.tsx`, restricted to the fields the core logic
reads (`id`, `type`, `data`, `visible`, `measurement`, `isUploaded`); the
purely cosmetic fields (`name`, `color`, `icon`, `radius`,
`pointDisplayMode`, `iconType`, `folder`) are omitted.  The source's string
`id` (`generateLayerId`, a monotonic counter plus timestamp) is modelled as a
natural number, and the formatted `measurement` string is modelled by its
numeric value. -/
structure Layer (α : Type) where
  id : ℕ
  type : LayerType
  data : List (LayerItem α)
  visible : Bool
  measurement : Option α
  isUploaded : Bool
deriving DecidableEq

/-- The `drawMode` state of `App.tsx`. -/
inductive DrawMode where
  | none
  | point
  | polygon
  | line
  | sector
  | distance
  | area
  | azimuth
deriving DecidableEq

/-- The slice of `App.tsx` React state read and written by `handleMapClick`:
`drawMode`, `drawingPoints`, the three sector sub-state cells, the layer
list, and `viewState.zoom` (used for the close-polygon tolerance). -/
structure MapState where
  drawMode : DrawMode
  drawingPoints : List (ℝ × ℝ)
  sectorCenter : Option (ℝ × ℝ)
  sectorRadius : ℝ
  sectorStartAngle : ℝ
  layers : List (Layer ℝ)
  zoom : ℝ

/-- `handleMapClick` from `App.tsx`: one pointer-click event processed by the
drawing session.  Each `else if (drawMode === ...)` branch of the source
becomes one arm of the match; the committed layer's `id` stands in for the
fresh `generateLayerId()` value. -/
def handleMapClick (s : MapState) (coordinate : ℝ × ℝ) : MapState :=
  match s.drawMode with
  | .none => s
  | .point =>
      let newLayer : Layer ℝ :=
        { id := s.layers.length, type := .point, data := [.position coordinate],
          visible := true, measurement := Option.none, isUploaded := false }
      { s with layers := s.layers ++ [newLayer], drawMode := .none }
  | .polygon =>
      let newPoints := s.drawingPoints ++ [coordinate]
      if 2 ≤ s.drawingPoints.length then
        let firstPoint := s.drawingPoints.headI
        let distanceInDegrees :=
          Real.sqrt ((coordinate.1 - firstPoint.1) ^ 2 + (coordinate.2 - firstPoint.2) ^ 2)
        let zoomFactor := max 0.1 (1 / (2:ℝ) ^ (s.zoom - 5))
        let tolerance := 0.05 * zoomFactor
        if distanceInDegrees < tolerance then
          let closedPoints := newPoints ++ [newPoints.headI]
          let newLayer : Layer ℝ :=
            { id := s.layers.length, type := .polygon, data := [.polygon closedPoints],
              visible := true, measurement := Option.none, isUploaded := false }
          { s with layers := s.layers ++ [newLayer], drawingPoints := [],
                   drawMode := .none }
        else { s with drawingPoints := newPoints }
      else { s with drawingPoints := newPoints }
  | .line =>
      let newPoints := s.drawingPoints ++ [coordinate]
      if newPoints.length = 2 then
        let newLayer : Layer ℝ :=
          { id := s.layers.length, type := .line, data := [.path newPoints],
            visible := true, measurement := Option.none, isUploaded := false }
        { s with layers := s.layers ++ [newLayer], drawingPoints := [],
                 drawMode := .none }
      else { s with drawingPoints := newPoints }
  | .sector =>
      match s.sectorCenter with
      | Option.none => { s with sectorCenter := some coordinate }
      | some sectorCenter =>
        if s.sectorRadius = 0 then
          let radius :=
            Real.sqrt ((coordinate.1 - sectorCenter.1) ^ 2 +
              (coordinate.2 - sectorCenter.2) ^ 2)
          { s with sectorRadius := radius }
        else if s.sectorStartAngle = 0 then
          let startAngle :=
            atan2 (coordinate.2 - sectorCenter.2) (coordinate.1 - sectorCenter.1)
          { s with sectorStartAngle := startAngle }
        else
          let endAngle :=
            atan2 (coordinate.2 - sectorCenter.2) (coordinate.1 - sectorCenter.1)
          let sectorPolygon :=
            createSectorPolygon sectorCenter s.sectorRadius s.sectorStartAngle endAngle
          let newLayer : Layer ℝ :=
            { id := s.layers.length, type := .sector, data := [.polygon sectorPolygon],
              visible := true,
              measurement := some |(endAngle - s.sectorStartAngle) * 180 / π|,
              isUploaded := false }
          { s with layers := s.layers ++ [newLayer], sectorCenter := Option.none,
                   sectorRadius := 0, sectorStartAngle := 0, drawMode := .none }
  | .distance =>
      let newPoints := s.drawingPoints ++ [coordinate]
      if newPoints.length = 2 then
        let distance := calculateDistance newPoints.headI newPoints.tail.headI
        let newLayer : Layer ℝ :=
          { id := s.layers.length, type := .distance, data := [.path newPoints],
            visible := true, measurement := some distance, isUploaded := false }
        { s with layers := s.layers ++ [newLayer], drawingPoints := [],
                 drawMode := .none }
      else { s with drawingPoints := newPoints }
  | .area =>
      let newPoints := s.drawingPoints ++ [coordinate]
      if 2 ≤ s.drawingPoints.length then
        let firstPoint := s.drawingPoints.headI
        let distance :=
          Real.sqrt ((coordinate.1 - firstPoint.1) ^ 2 + (coordinate.2 - firstPoint.2) ^ 2)
        let zoomFactor := max 0.1 (1 / (2:ℝ) ^ (s.zoom - 5))
        let tolerance := 0.05 * zoomFactor
        if distance < tolerance then
          let closedPoints := newPoints ++ [newPoints.headI]
          let area := calculatePolygonArea closedPoints
          let newLayer : Layer ℝ :=
            { id := s.layers.length, type := .area, data := [.polygon closedPoints],
              visible := true, measurement := some area, isUploaded := false }
          { s with layers := s.layers ++ [newLayer], drawingPoints := [],
                   drawMode := .none }
        else { s with drawingPoints := newPoints }
      else { s with drawingPoints := newPoints }
  | .azimuth =>
      let newPoints := s.drawingPoints ++ [coordinate]
      if newPoints.length = 2 then
        let azimuth := calculateAzimuth newPoints.headI newPoints.tail.headI
        let newLayer : Layer ℝ :=
          { id := s.layers.length, type := .azimuth, data := [.path newPoints],
            visible := true, measurement := some azimuth, isUploaded := false }
        { s with layers := s.layers ++ [newLayer], drawingPoints := [],
                 drawMode := .none }
      else { s with drawingPoints := newPoints }

end

/-! ### Drag-translate engine

`handleDragStart` / `handleDrag` / `handleDragEnd` from `App.tsx`, over exact
rational coordinates (the drag path uses only `+` and `-`, so `ℚ` models the
JavaScript arithmetic without loss for finite inputs). -/

/-- The React state cells used by the drag gesture, plus the layer list. -/
structure DragAppState where
  layers : List (Layer ℚ)
  isDragging : Bool
  draggedLayerId : Option ℕ
  dragStartPosition : Option (ℚ × ℚ)
  originalLayerData : Option (List (LayerItem ℚ))
deriving DecidableEq

/-- The per-item body of the `originalLayerData.map` in `handleDrag`: shift a
single geometry item by the drag delta, dispatching on the layer `type`
exactly as the source's `if (l.type === ...)` chain does (with the source's
trailing `return item` as the fallback). -/
def translateItem (t : LayerType) (totalDeltaLng totalDeltaLat : ℚ)
    (item : LayerItem ℚ) : LayerItem ℚ :=
  match t, item with
  | .point, .position p => .position (p.1 + totalDeltaLng, p.2 + totalDeltaLat)
  | .polygon, .polygon ring =>
      .polygon (ring.map (fun point => (point.1 + totalDeltaLng, point.2 + totalDeltaLat)))
  | .sector, .polygon ring =>
      .polygon (ring.map (fun point => (point.1 + totalDeltaLng, point.2 + totalDeltaLat)))
  | .area, .polygon ring =>
      .polygon (ring.map (fun point => (point.1 + totalDeltaLng, point.2 + totalDeltaLat)))
  | .distance, .path pts =>
      .path (pts.map (fun point => (point.1 + totalDeltaLng, point.2 + totalDeltaLat)))
  | .azimuth, .path pts =>
      .path (pts.map (fun point => (point.1 + totalDeltaLng, point.2 + totalDeltaLat)))
  | .line, .path pts =>
      .path (pts.map (fun point => (point.1 + totalDeltaLng, point.2 + totalDeltaLat)))
  | _, _ => item

/-- `handleDragStart` from `App.tsx`.  `hitLayerId` models
`info.object && info.layer` (the gesture started on a rendered object of
that layer); the snapshot `JSON.parse(JSON.stringify(layer.data))` is a
value copy, which is the ordinary copy in Lean. -/
def handleDragStart (st : DragAppState) (drawMode : DrawMode)
    (hitLayerId : Option ℕ) (coordinate : ℚ × ℚ) : DragAppState :=
  if drawMode = .none then
    match hitLayerId with
    | Option.none => st
    | some layerId =>
      match st.layers.find? (fun l => l.id == layerId) with
      | Option.none => st
      | some layer =>
          if !layer.isUploaded then
            { st with isDragging := true, draggedLayerId := some layerId,
                      dragStartPosition := some coordinate,
                      originalLayerData := some layer.data }
          else st
  else st

/-- `handleDrag` from `App.tsx`: on every move event, rebuild the dragged
layer's geometry from the snapshot (`originalLayerData`) displaced by
`current - dragStartPosition`. -/
def handleDrag (st : DragAppState) (coordinate : ℚ × ℚ) : DragAppState :=
  match st.isDragging, st.draggedLayerId, st.dragStartPosition, st.originalLayerData with
  | true, some draggedLayerId, some dragStartPosition, some originalLayerData =>
    match st.layers.find? (fun l => l.id == draggedLayerId) with
    | Option.none => st
    | some _ =>
      let totalDeltaLng := coordinate.1 - dragStartPosition.1
      let totalDeltaLat := coordinate.2 - dragStartPosition.2
      { st with layers := st.layers.map (fun l =>
          if l.id == draggedLayerId then
            { l with data :=
                originalLayerData.map (translateItem l.type totalDeltaLng totalDeltaLat) }
          else l) }
  | _, _, _, _ => st

/-- `handleDragEnd` from `App.tsx`: discard the gesture state. -/
def handleDragEnd (st : DragAppState) : DragAppState :=
  { st with isDragging := false, draggedLayerId := Option.none,
            dragStartPosition := Option.none, originalLayerData := Option.none }

/-! ### IEEE special values for the viewport fitter

`focusOnLayer` starts its bounding-box fold from `Infinity` / `-Infinity`, so
its embedding uses an explicit model of JavaScript numbers: `nan`, the two
infinities, and exact finite values.  Only the operations the function
performs are defined, each following IEEE-754 (and hence JavaScript)
semantics: `Math.min` / `Math.max` propagate `NaN`; `Infinity + -Infinity`
is `NaN`; comparisons with `NaN` are false. -/

inductive JSNum where
  | nan
  | posInf
  | negInf
  | num (q : ℚ)
deriving DecidableEq

/-- JavaScript unary minus. -/
def JSNum.neg : JSNum → JSNum
  | .nan => .nan
  | .posInf => .negInf
  | .negInf => .posInf
  | .num q => .num (-q)

/-- JavaScript `+`. -/
def JSNum.add : JSNum → JSNum → JSNum
  | .nan, _ => .nan
  | _, .nan => .nan
  | .posInf, .negInf => .nan
  | .negInf, .posInf => .nan
  | .posInf, _ => .posInf
  | .negInf, _ => .negInf
  | .num _, .posInf => .posInf
  | .num _, .negInf => .negInf
  | .num a, .num b => .num (a + b)

/-- JavaScript `-`. -/
def JSNum.sub (a b : JSNum) : JSNum := JSNum.add a (JSNum.neg b)

/-- JavaScript `/ 2`. -/
def JSNum.div2 : JSNum → JSNum
  | .nan => .nan
  | .posInf => .posInf
  | .negInf => .negInf
  | .num q => .num (q / 2)

/-- `Math.min` (returns `NaN` if either argument is `NaN`). -/
def JSNum.min : JSNum → JSNum → JSNum
  | .nan, _ => .nan
  | _, .nan => .nan
  | .negInf, _ => .negInf
  | _, .negInf => .negInf
  | .posInf, b => b
  | a, .posInf => a
  | .num a, .num b => .num (Min.min a b)

/-- `Math.max` (returns `NaN` if either argument is `NaN`). -/
def JSNum.max : JSNum → JSNum → JSNum
  | .nan, _ => .nan
  | _, .nan => .nan
  | .posInf, _ => .posInf
  | _, .posInf => .posInf
  | .negInf, b => b
  | a, .negInf => a
  | .num a, .num b => .num (Max.max a b)

/-- JavaScript strict `<` (false whenever either side is `NaN`). -/
def JSNum.blt : JSNum → JSNum → Bool
  | .nan, _ => false
  | _, .nan => false
  | .negInf, .negInf => false
  | .negInf, _ => true
  | .posInf, _ => false
  | .num _, .negInf => false
  | .num _, .posInf => true
  | .num a, .num b => decide (a < b)

/-- The `viewState` record of `App.tsx` as written by `focusOnLayer`
(`longitude` / `latitude` can be `NaN`, so they live in `JSNum`; the zoom
ladder and pitch/bearing only ever produce finite values). -/
structure ViewStateJS where
  longitude : JSNum
  latitude : JSNum
  zoom : ℚ
  pitch : ℚ
  bearing : ℚ
deriving DecidableEq

/-- The coordinates one `layer.data` item contributes to the bounding box in
`focusOnLayer`, following the source's dispatch on `layer.type`. -/
def itemCoords (t : LayerType) (item : LayerItem ℚ) : List (ℚ × ℚ) :=
  match t, item with
  | .point, .position p => [p]
  | .polygon, .polygon ring => ring
  | .area, .polygon ring => ring
  | .sector, .polygon ring => ring
  | .line, .path pts => pts
  | .distance, .path pts => pts
  | .azimuth, .path pts => pts
  | _, _ => []

/-- `focusOnLayer` from `App.tsx` (after the `layers.find` succeeded): fold
the bounding box starting from `±Infinity`, take the midpoint as center,
choose zoom by the `maxDiff` ladder, apply the padding correction, clamp to
`[1, 20]`, and reset pitch/bearing.  The source never reads the previous
`viewState`, so the function takes only the layer. -/
def focusOnLayer (layer : Layer ℚ) : ViewStateJS :=
  let pts := layer.data.flatMap (fun item => itemCoords layer.type item)
  let minLng := pts.foldl (fun acc p => JSNum.min acc (JSNum.num p.1)) JSNum.posInf
  let maxLng := pts.foldl (fun acc p => JSNum.max acc (JSNum.num p.1)) JSNum.negInf
  let minLat := pts.foldl (fun acc p => JSNum.min acc (JSNum.num p.2)) JSNum.posInf
  let maxLat := pts.foldl (fun acc p => JSNum.max acc (JSNum.num p.2)) JSNum.negInf
  let centerLng := JSNum.div2 (JSNum.add minLng maxLng)
  let centerLat := JSNum.div2 (JSNum.add minLat maxLat)
  let lngDiff := JSNum.sub maxLng minLng
  let latDiff := JSNum.sub maxLat minLat
  let maxDiff := JSNum.max lngDiff latDiff
  let zoom : ℚ :=
    if layer.data.length = 1 ∧ layer.type = .point then
      (if layer.isUploaded then 15 else 17)
    else if JSNum.blt maxDiff (JSNum.num 0.001) then
      (if layer.isUploaded then 16 else 18)
    else if JSNum.blt maxDiff (JSNum.num 0.01) then
      (if layer.isUploaded then 15 else 17)
    else if JSNum.blt maxDiff (JSNum.num 0.1) then
      (if layer.isUploaded then 13 else 15)
    else if JSNum.blt maxDiff (JSNum.num 0.5) then
      (if layer.isUploaded then 11 else 13)
    else if JSNum.blt maxDiff (JSNum.num 2) then
      (if layer.isUploaded then 9 else 11)
    else if JSNum.blt maxDiff (JSNum.num 10) then
      (if layer.isUploaded then 7 else 9)
    else
      (if layer.isUploaded then 5 else 7)
  let zoomPadded : ℚ :=
    if layer.type = .point ∧ 1 < layer.data.length then
      Max.max 1 (Min.min 20 (zoom - 2))
    else
      Max.max 1 (Min.min 20 (zoom - 1))
  { longitude := centerLng, latitude := centerLat, zoom := zoomPadded,
    pitch := 0, bearing := 0 }

/-! ### Live overlay merge -/

/-- One record of the live feed (`socketData` elements), restricted to the
fields the overlay reads. -/
structure NetworkNode where
  id : ℕ
  longitude : ℚ
  latitude : ℚ
  snr : ℚ
deriving DecidableEq

/-- The feed payload as tested by
`socketData && Array.isArray(socketData) && socketData.length > 0`:
`absent` models `null`/`undefined` (falsy), `nonArray` a truthy value that is
not an array, `arr` an array of node records. -/
inductive SocketPayload where
  | absent
  | nonArray
  | arr (nodes : List NetworkNode)
deriving DecidableEq

inductive PointDisplayMode where
  | circle
  | icon
deriving DecidableEq

inductive IconKind where
  | marker
  | pin
  | wifi
  | circle
deriving DecidableEq

/-- The `networkLayerState` record of `App.tsx`. -/
structure NetworkLayerState where
  visible : Bool
  radius : ℚ
  pointDisplayMode : PointDisplayMode
  iconType : IconKind
deriving DecidableEq

/-- One item of the derived overlay: the node position plus the original
record (stored for SNR-based coloring and hit-testing). -/
structure NetworkItem where
  position : ℚ × ℚ
  node : NetworkNode
deriving DecidableEq

/-- The overlay layer produced by the `networkNodesLayer` memo. -/
structure NetworkNodesLayer where
  data : List NetworkItem
  visible : Bool
  radius : ℚ
  pointDisplayMode : PointDisplayMode
  iconType : IconKind
  isUploaded : Bool
deriving DecidableEq

/-- The `networkNodesLayer` memo from `App.tsx`: a non-empty array payload
yields the overlay (item `i` built from record `i`), everything else yields
`null` (no overlay, no error). -/
def networkNodesLayer (socketData : SocketPayload)
    (networkLayerState : NetworkLayerState) : Option NetworkNodesLayer :=
  match socketData with
  | .arr nodes =>
      if 0 < nodes.length then
        let items := nodes.map (fun node =>
          { position := (node.longitude, node.latitude), node := node : NetworkItem })
        some { data := items, visible := networkLayerState.visible,
               radius := networkLayerState.radius,
               pointDisplayMode := networkLayerState.pointDisplayMode,
               iconType := networkLayerState.iconType, isUploaded := false }
      else Option.none
  | _ => Option.none

/-! ### Render-set slice -/

/-- The user-layer portion of the `deckLayers` construction in `App.tsx`:
`layers.filter((layer) => layer.visible).slice(0, 50)`.  Each element of the
returned list then contributes that layer's renderable primitives via the
subsequent `forEach`; layers not in this list contribute nothing. -/
def deckUserLayers (layers : List (Layer ℚ)) : List (Layer ℚ) :=
  (layers.filter (fun layer => layer.visible)).take 50

/-! ### Theorems -/

section Theorems

open Real

/-- C7: for every pair of coordinates `A` and `B`, the haversine distance is
symmetric — `calculateDistance A B = calculateDistance B A` holds exactly
(the model works over `ℝ`, so the floating tolerance of the claim is not
even needed). -/
theorem C7_calculateDistance_symm (A B : ℝ × ℝ) :
    calculateDistance A B = calculateDistance B A := by
  simp only [calculateDistance]
  rw [show (A.2 - B.2) * π / 180 / 2 = -((B.2 - A.2) * π / 180 / 2) by ring,
    show (A.1 - B.1) * π / 180 / 2 = -((B.1 - A.1) * π / 180 / 2) by ring,
    Real.sin_neg, Real.sin_neg]
  ring_nf

/-- Characterization of the `while` normalization loop: the result is
`endAngle` plus the least number of `2π` increments that takes it strictly
above `startAngle`. -/
theorem normalizeEndAngle_spec (s e : ℝ) :
    ∃ k : ℕ, normalizeEndAngle s e = e + 2 * π * k ∧
      s < normalizeEndAngle s e ∧
      (k = 0 ∨ e + 2 * π * ((k - 1 : ℕ) : ℝ) ≤ s) := by
  induction e using normalizeEndAngle.induct with
  | startAngle => exact s
  | case1 e hle ih =>
    obtain ⟨k, hk, hlt, hmin⟩ := ih
    have heq : normalizeEndAngle s e = normalizeEndAngle s (e + 2 * π) := by
      rw [normalizeEndAngle]
      rw [if_pos hle]
    refine ⟨k + 1, ?_, ?_, Or.inr ?_⟩
    · rw [heq, hk]
      push_cast
      ring
    · rw [heq]
      exact hlt
    · have hsub : ((k + 1 - 1 : ℕ) : ℝ) = (k : ℕ) := by norm_num
      rw [hsub]
      have hπ : (0:ℝ) < 2 * π := by positivity
      rcases hmin with h0 | hmore
      · subst h0
        simpa using hle
      · have hcast : ((k : ℕ) : ℝ) ≤ 1 + ((k - 1 : ℕ) : ℝ) := by
          have hnat : k ≤ 1 + (k - 1) := by omega
          exact_mod_cast hnat
        nlinarith [Real.pi_pos]
  | case2 e hgt =>
    rw [normalizeEndAngle, if_neg hgt]
    exact ⟨0, by push_cast; ring, lt_of_not_le hgt, Or.inl rfl⟩

/-- C4: `createSectorPolygon` returns the center followed by exactly 33 arc
points; their angles are evenly spaced with a strictly positive step, running
from `startAngle` up to the end angle `E` obtained by repeatedly adding `2π`
to `endAngle` until it exceeds `startAngle` (so the sweep is always positive,
never the shorter arc), and each arc point is
`(center.x + radius·cos θ, center.y + radius·sin θ)`. -/
theorem C4_createSectorPolygon_shape (center : ℝ × ℝ)
    (radius startAngle endAngle : ℝ) :
    ∃ E : ℝ,
      (∃ k : ℕ, E = endAngle + 2 * π * k ∧
        (k = 0 ∨ endAngle + 2 * π * ((k - 1 : ℕ) : ℝ) ≤ startAngle)) ∧
      startAngle < E ∧
      createSectorPolygon center radius startAngle endAngle =
        center :: (List.range 33).map (fun i =>
          (center.1 + radius * Real.cos (startAngle + (E - startAngle) * ((i : ℝ) / 32)),
           center.2 + radius * Real.sin (startAngle + (E - startAngle) * ((i : ℝ) / 32)))) ∧
      (List.range 33).length = 33 ∧
      (∀ i : ℕ, (startAngle + (E - startAngle) * (((i : ℝ) + 1) / 32)) -
          (startAngle + (E - startAngle) * ((i : ℝ) / 32)) = (E - startAngle) / 32) ∧
      0 < (E - startAngle) / 32 ∧
      startAngle + (E - startAngle) * (((0:ℕ) : ℝ) / 32) = startAngle ∧
      startAngle + (E - startAngle) * (((32:ℕ) : ℝ) / 32) = E := by
  obtain ⟨k, hk, hlt, hmin⟩ := normalizeEndAngle_spec startAngle endAngle
  refine ⟨normalizeEndAngle startAngle endAngle, ⟨k, hk, hmin⟩, hlt, ?_, by simp,
    fun i => by ring, ?_, by push_cast; ring, by push_cast; ring⟩
  · simp only [createSectorPolygon, Nat.cast_ofNat]
  · have hpos : 0 < normalizeEndAngle startAngle endAngle - startAngle :=
      sub_pos.mpr hlt
    positivity

/-- `atan2` lies in `(-π, π]`, like `Complex.arg`. -/
theorem atan2_mem_Ioc (y x : ℝ) : -π < atan2 y x ∧ atan2 y x ≤ π :=
  ⟨(Complex.arg_mem_Ioc ⟨x, y⟩).1, (Complex.arg_mem_Ioc ⟨x, y⟩).2⟩

/-- For a positive first (x) argument, `atan2 y x = arctan (y / x)`. -/
theorem atan2_of_pos {x : ℝ} (y : ℝ) (hx : 0 < x) :
    atan2 y x = Real.arctan (y / x) := by
  have habs : |Complex.arg ⟨x, y⟩| < π / 2 :=
    Complex.abs_arg_lt_pi_div_two_iff.mpr (Or.inl hx)
  have hb := abs_lt.mp habs
  have htan : Real.tan (Complex.arg ⟨x, y⟩) = y / x := Complex.tan_arg ⟨x, y⟩
  rw [atan2, ← htan, Real.arctan_tan hb.1 hb.2]

/-- The raw bearing in degrees lies in `(-180, 180]`; after the
`if (azimuth < 0) azimuth += 360` normalization it lies in `[0, 360)`. -/
theorem normalizedDegrees_range (a : ℝ) (h1 : -π < a) (h2 : a ≤ π) :
    0 ≤ (if a * 180 / π < 0 then a * 180 / π + 360 else a * 180 / π) ∧
      (if a * 180 / π < 0 then a * 180 / π + 360 else a * 180 / π) < 360 := by
  have hπ : (0:ℝ) < π := Real.pi_pos
  have hle : a * 180 / π ≤ 180 := by
    rw [div_le_iff₀ hπ]
    nlinarith
  have hgt : -180 < a * 180 / π := by
    rw [lt_div_iff₀ hπ]
    nlinarith
  split_ifs with h
  · constructor <;> linarith
  · constructor <;> linarith

/-- C8 (amended): `calculateAzimuth` always returns a value in `[0, 360)`
(negative raw bearings are normalized by adding 360).  This is the provable
part of the claim; the reciprocal relation
`azimuth(B,A) ≈ azimuth(A,B) + 180 (mod 360)` fails in general. -/
theorem C8_calculateAzimuth_range (A B : ℝ × ℝ) :
    0 ≤ calculateAzimuth A B ∧ calculateAzimuth A B < 360 := by
  simp only [calculateAzimuth]
  exact normalizedDegrees_range _ (atan2_mem_Ioc _ _).1 (atan2_mem_Ioc _ _).2

/-- C8 counterexample: for `A = (0°E, 60°N)`, `B = (90°E, 60°N)`, the
reverse bearing `azimuth(B,A)` exceeds `azimuth(A,B) + 180` (which already
lies in `[0, 360)`, so it equals its own residue mod 360) by more than 60
degrees — far beyond any floating tolerance. -/
theorem C8_azimuth_reciprocal_cex :
    0 ≤ calculateAzimuth ((0:ℝ), (60:ℝ)) ((90:ℝ), (60:ℝ)) + 180 ∧
    calculateAzimuth ((0:ℝ), (60:ℝ)) ((90:ℝ), (60:ℝ)) + 180 < 360 ∧
    60 < calculateAzimuth ((90:ℝ), (60:ℝ)) ((0:ℝ), (60:ℝ)) -
      (calculateAzimuth ((0:ℝ), (60:ℝ)) ((90:ℝ), (60:ℝ)) + 180) := by
  have hπ : (0:ℝ) < π := Real.pi_pos
  have h3pos : (0:ℝ) < Real.sqrt 3 := Real.sqrt_pos.mpr (by norm_num)
  have h90 : ((90:ℝ) - 0) * π / 180 = π / 2 := by ring
  have hneg90 : ((0:ℝ) - 90) * π / 180 = -(π / 2) := by ring
  have h60 : (60:ℝ) * π / 180 = π / 3 := by ring
  have harctan_pos : 0 < Real.arctan (2 / Real.sqrt 3) := by
    have h := Real.arctan_strictMono (show (0:ℝ) < 2 / Real.sqrt 3 by positivity)
    rwa [Real.arctan_zero] at h
  have harctan_nonneg : 0 ≤ Real.arctan (2 / Real.sqrt 3) := harctan_pos.le
  have hX : Real.cos ((60:ℝ) * π / 180) * Real.sin ((60:ℝ) * π / 180) -
      Real.sin ((60:ℝ) * π / 180) * Real.cos ((60:ℝ) * π / 180) *
        Real.cos (((90:ℝ) - 0) * π / 180) = Real.sqrt 3 / 4 := by
    rw [h90, h60, Real.cos_pi_div_two, Real.cos_pi_div_three, Real.sin_pi_div_three]
    ring
  have hXBA : Real.cos ((60:ℝ) * π / 180) * Real.sin ((60:ℝ) * π / 180) -
      Real.sin ((60:ℝ) * π / 180) * Real.cos ((60:ℝ) * π / 180) *
        Real.cos (((0:ℝ) - 90) * π / 180) = Real.sqrt 3 / 4 := by
    rw [hneg90, h60, Real.cos_neg, Real.cos_pi_div_two, Real.cos_pi_div_three,
      Real.sin_pi_div_three]
    ring
  have hY : Real.sin (((90:ℝ) - 0) * π / 180) * Real.cos ((60:ℝ) * π / 180) =
      (1:ℝ) / 2 := by
    rw [h90, h60, Real.sin_pi_div_two, Real.cos_pi_div_three]
    norm_num
  have hYBA : Real.sin (((0:ℝ) - 90) * π / 180) * Real.cos ((60:ℝ) * π / 180) =
      -((1:ℝ) / 2) := by
    rw [hneg90, h60, Real.sin_neg, Real.sin_pi_div_two, Real.cos_pi_div_three]
    norm_num
  have hdivAB : ((1:ℝ) / 2) / (Real.sqrt 3 / 4) = 2 / Real.sqrt 3 := by
    field_simp
    ring
  have hdivBA : (-((1:ℝ) / 2)) / (Real.sqrt 3 / 4) = -(2 / Real.sqrt 3) := by
    field_simp
    ring
  have hAB : calculateAzimuth ((0:ℝ), (60:ℝ)) ((90:ℝ), (60:ℝ)) =
      Real.arctan (2 / Real.sqrt 3) * 180 / π := by
    simp only [calculateAzimuth]
    rw [hY, hX, atan2_of_pos _ (by positivity), hdivAB]
    rw [if_neg (not_lt.mpr (by positivity))]
  have hBA : calculateAzimuth ((90:ℝ), (60:ℝ)) ((0:ℝ), (60:ℝ)) =
      -(Real.arctan (2 / Real.sqrt 3) * 180 / π) + 360 := by
    simp only [calculateAzimuth]
    rw [hYBA, hXBA, atan2_of_pos _ (by positivity), hdivBA, Real.arctan_neg]
    have hposdeg : 0 < Real.arctan (2 / Real.sqrt 3) * 180 / π :=
      div_pos (mul_pos harctan_pos (by norm_num)) hπ
    have hflip : -Real.arctan (2 / Real.sqrt 3) * 180 / π =
        -(Real.arctan (2 / Real.sqrt 3) * 180 / π) := by ring
    rw [hflip, if_pos (neg_lt_zero.mpr hposdeg)]
  have harctan_lt : Real.arctan (2 / Real.sqrt 3) < π / 3 := by
    have h23 : (2:ℝ) / Real.sqrt 3 < Real.sqrt 3 := by
      rw [div_lt_iff₀ h3pos, Real.mul_self_sqrt (by norm_num : (0:ℝ) ≤ 3)]
      norm_num
    calc Real.arctan (2 / Real.sqrt 3) < Real.arctan (Real.sqrt 3) :=
          Real.arctan_strictMono h23
      _ = π / 3 := by
          rw [← Real.tan_pi_div_three]
          exact Real.arctan_tan (by linarith) (by linarith)
  have hd60 : Real.arctan (2 / Real.sqrt 3) * 180 / π < 60 := by
    rw [div_lt_iff₀ hπ]
    nlinarith
  have hd0 : 0 ≤ Real.arctan (2 / Real.sqrt 3) * 180 / π :=
    div_nonneg (mul_nonneg harctan_nonneg (by norm_num)) hπ.le
  rw [hAB, hBA]
  refine ⟨by linarith, by linarith, by linarith⟩

/-- C1: `focusOnLayer` has no guard for an empty `layer.data`.  Folding the
bounding box over no coordinates leaves the `±Infinity` sentinels, the center
becomes `(Infinity + -Infinity)/2 = NaN`, and `setViewState` is still called:
for a layer with an empty geometry list the function returns the viewport
`(NaN, NaN, zoom 17, pitch 0, bearing 0)` — not a no-op, and a NaN center is
produced, contradicting the claimed contract. -/
theorem C1_focusOnLayer_empty_sets_nan :
    focusOnLayer { id := 0, type := LayerType.polygon, data := [], visible := true,
                   measurement := Option.none, isUploaded := false } =
      { longitude := JSNum.nan, latitude := JSNum.nan, zoom := 17, pitch := 0,
        bearing := 0 } ∧
    focusOnLayer { id := 0, type := LayerType.polygon, data := [], visible := true,
                   measurement := Option.none, isUploaded := false } ≠
      { longitude := JSNum.num 10, latitude := JSNum.num 20, zoom := 4, pitch := 30,
        bearing := 40 } := by
  constructor
  · simp only [focusOnLayer, List.flatMap_nil, List.foldl_nil, List.length_nil]
    norm_num [JSNum.add, JSNum.div2, JSNum.sub, JSNum.neg, JSNum.max, JSNum.blt]
  · intro h
    have hlon := congrArg ViewStateJS.longitude h
    simp only [focusOnLayer, List.flatMap_nil, List.foldl_nil] at hlon
    exact JSNum.noConfusion hlon

/-- `headI` of a right-extended non-empty list. -/
theorem headI_append_singleton {α : Type} [Inhabited α] (l : List α) (x : α)
    (h : l ≠ []) : (l ++ [x]).headI = l.headI := by
  obtain ⟨a, t, rfl⟩ := List.exists_cons_of_ne_nil h
  rfl

/-- First and last entries of a ring of the shape the close branch builds. -/
theorem closed_ring_head_last (l : List (ℝ × ℝ)) (c x : ℝ × ℝ) (h : l ≠ []) :
    ((l ++ [c]) ++ [x]).head? = some l.headI ∧
    ((l ++ [c]) ++ [x]).getLast? = some x := by
  obtain ⟨a, t, rfl⟩ := List.exists_cons_of_ne_nil h
  exact ⟨rfl, List.getLast?_concat _⟩

/-- The polygon-mode close branch of `handleMapClick`: with at least two
accumulated vertices and a click within tolerance of `drawingPoints[0]`, the
session commits a polygon layer whose ring is
`drawingPoints ++ [click] ++ [drawingPoints[0]]` and resets. -/
theorem handleMapClick_polygon_close (s : MapState) (c : ℝ × ℝ)
    (hm : s.drawMode = DrawMode.polygon)
    (hlen : 2 ≤ s.drawingPoints.length)
    (hclose : Real.sqrt ((c.1 - s.drawingPoints.headI.1) ^ 2 +
        (c.2 - s.drawingPoints.headI.2) ^ 2) <
      0.05 * max 0.1 (1 / (2:ℝ) ^ (s.zoom - 5))) :
    handleMapClick s c =
      { s with
        layers := s.layers ++
          [{ id := s.layers.length, type := LayerType.polygon,
             data := [LayerItem.polygon
               ((s.drawingPoints ++ [c]) ++ [s.drawingPoints.headI])],
             visible := true, measurement := Option.none, isUploaded := false }],
        drawingPoints := [], drawMode := DrawMode.none } := by
  have hne : s.drawingPoints ≠ [] := by
    intro h0
    rw [h0] at hlen
    simp at hlen
  simp only [handleMapClick, hm]
  rw [if_pos hlen, if_pos hclose, headI_append_singleton _ _ hne]

/-- The polygon-mode non-close branch: a click at or beyond tolerance is
appended and the mode is kept. -/
theorem handleMapClick_polygon_far (s : MapState) (c : ℝ × ℝ)
    (hm : s.drawMode = DrawMode.polygon)
    (hlen : 2 ≤ s.drawingPoints.length)
    (hfar : 0.05 * max 0.1 (1 / (2:ℝ) ^ (s.zoom - 5)) ≤
      Real.sqrt ((c.1 - s.drawingPoints.headI.1) ^ 2 +
        (c.2 - s.drawingPoints.headI.2) ^ 2)) :
    handleMapClick s c = { s with drawingPoints := s.drawingPoints ++ [c] } := by
  simp only [handleMapClick, hm]
  rw [if_pos hlen, if_neg (not_lt.mpr hfar)]

/-- The area-mode close branch: same geometry as the polygon one, plus the
computed `polygonArea` measurement. -/
theorem handleMapClick_area_close (s : MapState) (c : ℝ × ℝ)
    (hm : s.drawMode = DrawMode.area)
    (hlen : 2 ≤ s.drawingPoints.length)
    (hclose : Real.sqrt ((c.1 - s.drawingPoints.headI.1) ^ 2 +
        (c.2 - s.drawingPoints.headI.2) ^ 2) <
      0.05 * max 0.1 (1 / (2:ℝ) ^ (s.zoom - 5))) :
    handleMapClick s c =
      { s with
        layers := s.layers ++
          [{ id := s.layers.length, type := LayerType.area,
             data := [LayerItem.polygon
               ((s.drawingPoints ++ [c]) ++ [s.drawingPoints.headI])],
             visible := true,
             measurement := some (calculatePolygonArea
               ((s.drawingPoints ++ [c]) ++ [s.drawingPoints.headI])),
             isUploaded := false }],
        drawingPoints := [], drawMode := DrawMode.none } := by
  have hne : s.drawingPoints ≠ [] := by
    intro h0
    rw [h0] at hlen
    simp at hlen
  simp only [handleMapClick, hm]
  rw [if_pos hlen, if_pos hclose, headI_append_singleton _ _ hne]

/-- The area-mode non-close branch. -/
theorem handleMapClick_area_far (s : MapState) (c : ℝ × ℝ)
    (hm : s.drawMode = DrawMode.area)
    (hlen : 2 ≤ s.drawingPoints.length)
    (hfar : 0.05 * max 0.1 (1 / (2:ℝ) ^ (s.zoom - 5)) ≤
      Real.sqrt ((c.1 - s.drawingPoints.headI.1) ^ 2 +
        (c.2 - s.drawingPoints.headI.2) ^ 2)) :
    handleMapClick s c = { s with drawingPoints := s.drawingPoints ++ [c] } := by
  simp only [handleMapClick, hm]
  rw [if_pos hlen, if_neg (not_lt.mpr hfar)]

/-- Tolerance at zoom 5 evaluates to `0.05`. -/
theorem tolerance_at_zoom_five :
    (0.05:ℝ) * max 0.1 (1 / (2:ℝ) ^ ((5:ℝ) - 5)) = 0.05 := by
  rw [show ((5:ℝ) - 5) = 0 by norm_num, Real.rpow_zero]
  rw [max_eq_right (by norm_num : (0.1:ℝ) ≤ 1 / 1)]
  norm_num

/-- The distance of the click `(0.01, 0)` to the first vertex `(0, 0)`. -/
theorem cex_click_distance :
    Real.sqrt (((0.01:ℝ) - 0) ^ 2 + ((0:ℝ) - 0) ^ 2) = 0.01 := by
  rw [show ((0.01:ℝ) - 0) ^ 2 + ((0:ℝ) - 0) ^ 2 = 0.01 ^ 2 by norm_num]
  exact Real.sqrt_sq (by norm_num)

/-- C2 counterexample: in polygon mode with accumulated vertices
`[(0,0), (1,0), (1,1)]` at zoom 5, the closing click `(0.01, 0)` (distance
`0.01 < tolerance 0.05`) commits the ring
`[(0,0), (1,0), (1,1), (0.01,0), (0,0)]` — the closing click IS appended
before the ring is closed, so the ring differs from the claimed
`vertices ++ [vertices[0]] = [(0,0), (1,0), (1,1), (0,0)]`. -/
theorem C2_ring_includes_closing_click_cex :
    ∃ L : Layer ℝ,
      (handleMapClick
        { drawMode := DrawMode.polygon,
          drawingPoints := [((0:ℝ),(0:ℝ)), ((1:ℝ),(0:ℝ)), ((1:ℝ),(1:ℝ))],
          sectorCenter := Option.none, sectorRadius := 0, sectorStartAngle := 0,
          layers := [], zoom := 5 } ((0.01:ℝ), (0:ℝ))).layers = [L] ∧
      L.data = [LayerItem.polygon
        [((0:ℝ),(0:ℝ)), ((1:ℝ),(0:ℝ)), ((1:ℝ),(1:ℝ)), ((0.01:ℝ),(0:ℝ)),
         ((0:ℝ),(0:ℝ))]] ∧
      ([((0:ℝ),(0:ℝ)), ((1:ℝ),(0:ℝ)), ((1:ℝ),(1:ℝ)), ((0.01:ℝ),(0:ℝ)),
        ((0:ℝ),(0:ℝ))] : List (ℝ × ℝ)) ≠
        [((0:ℝ),(0:ℝ)), ((1:ℝ),(0:ℝ)), ((1:ℝ),(1:ℝ)), ((0:ℝ),(0:ℝ))] := by
  have hclose : Real.sqrt (((0.01:ℝ) - 0) ^ 2 + ((0:ℝ) - 0) ^ 2) <
      0.05 * max 0.1 (1 / (2:ℝ) ^ ((5:ℝ) - 5)) := by
    rw [cex_click_distance, tolerance_at_zoom_five]
    norm_num
  have hrw := handleMapClick_polygon_close
    { drawMode := DrawMode.polygon,
      drawingPoints := [((0:ℝ),(0:ℝ)), ((1:ℝ),(0:ℝ)), ((1:ℝ),(1:ℝ))],
      sectorCenter := Option.none, sectorRadius := 0, sectorStartAngle := 0,
      layers := [], zoom := 5 } ((0.01:ℝ), (0:ℝ)) rfl (by norm_num) hclose
  refine ⟨{ id := 0, type := LayerType.polygon,
            data := [LayerItem.polygon
              [((0:ℝ),(0:ℝ)), ((1:ℝ),(0:ℝ)), ((1:ℝ),(1:ℝ)), ((0.01:ℝ),(0:ℝ)),
               ((0:ℝ),(0:ℝ))]],
            visible := true, measurement := Option.none, isUploaded := false },
    ?_, rfl, ?_⟩
  · rw [hrw]
    rfl
  · intro h
    have hlen := congrArg List.length h
    simp at hlen

/-- C2 (amended): in polygon or area mode with at least 2 accumulated
vertices, a click below the zoom-adaptive tolerance commits a layer whose
ring is `vertices ++ [click] ++ [vertices[0]]` — the closing click IS
appended as a vertex before the ring is closed with `vertices[0]` — and
resets the session to mode `none`; a click at or beyond the tolerance
appends the click and keeps the mode.  (For `area` the layer also carries
`measurement = polygonArea(ring)`.) -/
theorem C2_close_tolerance_behavior (s : MapState) (c : ℝ × ℝ)
    (hm : s.drawMode = DrawMode.polygon ∨ s.drawMode = DrawMode.area)
    (hlen : 2 ≤ s.drawingPoints.length) :
    (Real.sqrt ((c.1 - s.drawingPoints.headI.1) ^ 2 +
        (c.2 - s.drawingPoints.headI.2) ^ 2) <
      0.05 * max 0.1 (1 / (2:ℝ) ^ (s.zoom - 5)) →
      ∃ L : Layer ℝ,
        handleMapClick s c =
          { s with layers := s.layers ++ [L], drawingPoints := [],
                   drawMode := DrawMode.none } ∧
        L.data = [LayerItem.polygon
          ((s.drawingPoints ++ [c]) ++ [s.drawingPoints.headI])] ∧
        (s.drawMode = DrawMode.polygon →
          L.type = LayerType.polygon ∧ L.measurement = Option.none) ∧
        (s.drawMode = DrawMode.area →
          L.type = LayerType.area ∧
          L.measurement = some (calculatePolygonArea
            ((s.drawingPoints ++ [c]) ++ [s.drawingPoints.headI])))) ∧
    (0.05 * max 0.1 (1 / (2:ℝ) ^ (s.zoom - 5)) ≤
        Real.sqrt ((c.1 - s.drawingPoints.headI.1) ^ 2 +
          (c.2 - s.drawingPoints.headI.2) ^ 2) →
      handleMapClick s c = { s with drawingPoints := s.drawingPoints ++ [c] }) := by
  rcases hm with hm | hm
  · constructor
    · intro hclose
      refine ⟨_, handleMapClick_polygon_close s c hm hlen hclose, rfl,
        fun _ => ⟨rfl, rfl⟩, fun hc => ?_⟩
      rw [hm] at hc
      exact DrawMode.noConfusion hc
    · intro hfar
      exact handleMapClick_polygon_far s c hm hlen hfar
  · constructor
    · intro hclose
      refine ⟨_, handleMapClick_area_close s c hm hlen hclose, rfl,
        fun hc => ?_, fun _ => ⟨rfl, rfl⟩⟩
      rw [hm] at hc
      exact DrawMode.noConfusion hc
    · intro hfar
      exact handleMapClick_area_far s c hm hlen hfar

/-- C2 witness: the amended theorem applied to the concrete session
`(polygon, [(0,0),(1,0),(1,1)], zoom 5)` and the click `(0.01, 0)`. -/
theorem C2_close_tolerance_behavior_witness :
    (handleMapClick
      { drawMode := DrawMode.polygon,
        drawingPoints := [((0:ℝ),(0:ℝ)), ((1:ℝ),(0:ℝ)), ((1:ℝ),(1:ℝ))],
        sectorCenter := Option.none, sectorRadius := 0, sectorStartAngle := 0,
        layers := [], zoom := 5 } ((0.01:ℝ), (0:ℝ))).drawMode = DrawMode.none ∧
    (handleMapClick
      { drawMode := DrawMode.polygon,
        drawingPoints := [((0:ℝ),(0:ℝ)), ((1:ℝ),(0:ℝ)), ((1:ℝ),(1:ℝ))],
        sectorCenter := Option.none, sectorRadius := 0, sectorStartAngle := 0,
        layers := [], zoom := 5 } ((0.01:ℝ), (0:ℝ))).drawingPoints = [] := by
  have hclose : Real.sqrt (((0.01:ℝ) - 0) ^ 2 + ((0:ℝ) - 0) ^ 2) <
      0.05 * max 0.1 (1 / (2:ℝ) ^ ((5:ℝ) - 5)) := by
    rw [cex_click_distance, tolerance_at_zoom_five]
    norm_num
  obtain ⟨L, hL, -, -, -⟩ := (C2_close_tolerance_behavior
    { drawMode := DrawMode.polygon,
      drawingPoints := [((0:ℝ),(0:ℝ)), ((1:ℝ),(0:ℝ)), ((1:ℝ),(1:ℝ))],
      sectorCenter := Option.none, sectorRadius := 0, sectorStartAngle := 0,
      layers := [], zoom := 5 } ((0.01:ℝ), (0:ℝ)) (Or.inl rfl) (by norm_num)).1 hclose
  rw [hL]
  exact ⟨rfl, rfl⟩

/-- The radius set by clicking `(1,0)` around center `(0,0)`. -/
theorem cex_radius_one :
    Real.sqrt (((1:ℝ) - 0) ^ 2 + ((0:ℝ) - 0) ^ 2) = 1 := by
  rw [show ((1:ℝ) - 0) ^ 2 + ((0:ℝ) - 0) ^ 2 = 1 ^ 2 by norm_num]
  exact Real.sqrt_sq (by norm_num)

/-- A click due east of the center has angle `atan2 0 2 = 0`. -/
theorem cex_atan2_east :
    atan2 ((0:ℝ) - 0) ((2:ℝ) - 0) = 0 := by
  rw [show ((0:ℝ) - 0) = 0 by norm_num, show ((2:ℝ) - 0) = 2 by norm_num]
  show Complex.arg ⟨2, 0⟩ = 0
  rw [show (⟨2, 0⟩ : ℂ) = ((2:ℝ) : ℂ) from rfl]
  exact Complex.arg_ofReal_of_nonneg (by norm_num)

/-- C3 counterexample: in sector mode, the run
`click (0,0)` (center), `click (1,0)` (radius 1), `click (2,0)` (due east, so
`startAngle := atan2 0 2 = 0` — the `sectorStartAngle === 0` sentinel still
holds), `click (0,1)`: the fourth click re-enters the third-click branch and
sets the start angle again instead of committing; no layer is committed and
the mode stays `sector`, refuting "four sequential clicks always advance the
sub-state machine one step each and the fourth click always commits". -/
theorem C3_sector_fourth_click_no_commit_cex :
    (handleMapClick (handleMapClick (handleMapClick (handleMapClick
      { drawMode := DrawMode.sector, drawingPoints := [],
        sectorCenter := Option.none, sectorRadius := 0, sectorStartAngle := 0,
        layers := [], zoom := 5 }
      ((0:ℝ), (0:ℝ))) ((1:ℝ), (0:ℝ))) ((2:ℝ), (0:ℝ))) ((0:ℝ), (1:ℝ))).layers = [] ∧
    (handleMapClick (handleMapClick (handleMapClick (handleMapClick
      { drawMode := DrawMode.sector, drawingPoints := [],
        sectorCenter := Option.none, sectorRadius := 0, sectorStartAngle := 0,
        layers := [], zoom := 5 }
      ((0:ℝ), (0:ℝ))) ((1:ℝ), (0:ℝ))) ((2:ℝ), (0:ℝ))) ((0:ℝ), (1:ℝ))).drawMode =
      DrawMode.sector := by
  have hrad_ne : ¬(Real.sqrt (((1:ℝ) - 0) ^ 2 + ((0:ℝ) - 0) ^ 2) = 0) := by
    rw [cex_radius_one]
    norm_num
  have h1 : handleMapClick
      { drawMode := DrawMode.sector, drawingPoints := [],
        sectorCenter := Option.none, sectorRadius := 0, sectorStartAngle := 0,
        layers := [], zoom := 5 } ((0:ℝ), (0:ℝ)) =
      { drawMode := DrawMode.sector, drawingPoints := [],
        sectorCenter := some ((0:ℝ), (0:ℝ)), sectorRadius := 0,
        sectorStartAngle := 0, layers := [], zoom := 5 } := rfl
  have h2 : handleMapClick
      { drawMode := DrawMode.sector, drawingPoints := [],
        sectorCenter := some ((0:ℝ), (0:ℝ)), sectorRadius := 0,
        sectorStartAngle := 0, layers := [], zoom := 5 } ((1:ℝ), (0:ℝ)) =
      { drawMode := DrawMode.sector, drawingPoints := [],
        sectorCenter := some ((0:ℝ), (0:ℝ)),
        sectorRadius := Real.sqrt (((1:ℝ) - 0) ^ 2 + ((0:ℝ) - 0) ^ 2),
        sectorStartAngle := 0, layers := [], zoom := 5 } := by
    simp only [handleMapClick, if_true]
  have h3 : handleMapClick
      { drawMode := DrawMode.sector, drawingPoints := [],
        sectorCenter := some ((0:ℝ), (0:ℝ)),
        sectorRadius := Real.sqrt (((1:ℝ) - 0) ^ 2 + ((0:ℝ) - 0) ^ 2),
        sectorStartAngle := 0, layers := [], zoom := 5 } ((2:ℝ), (0:ℝ)) =
      { drawMode := DrawMode.sector, drawingPoints := [],
        sectorCenter := some ((0:ℝ), (0:ℝ)),
        sectorRadius := Real.sqrt (((1:ℝ) - 0) ^ 2 + ((0:ℝ) - 0) ^ 2),
        sectorStartAngle := 0, layers := [], zoom := 5 } := by
    simp only [handleMapClick]
    rw [if_neg hrad_ne]
    simp only [if_true]
    rw [cex_atan2_east]
  have h4 : handleMapClick
      { drawMode := DrawMode.sector, drawingPoints := [],
        sectorCenter := some ((0:ℝ), (0:ℝ)),
        sectorRadius := Real.sqrt (((1:ℝ) - 0) ^ 2 + ((0:ℝ) - 0) ^ 2),
        sectorStartAngle := 0, layers := [], zoom := 5 } ((0:ℝ), (1:ℝ)) =
      { drawMode := DrawMode.sector, drawingPoints := [],
        sectorCenter := some ((0:ℝ), (0:ℝ)),
        sectorRadius := Real.sqrt (((1:ℝ) - 0) ^ 2 + ((0:ℝ) - 0) ^ 2),
        sectorStartAngle := atan2 ((1:ℝ) - 0) ((0:ℝ) - 0), layers := [],
        zoom := 5 } := by
    simp only [handleMapClick]
    rw [if_neg hrad_ne]
    simp only [if_true]
  rw [h1, h2, h3, h4]
  exact ⟨rfl, rfl⟩

/-- C3 (amended): in sector mode starting from a cleared sector sub-state,
four clicks advance one step each and the fourth commits the sector layer
with `measurement = |degrees(endAngle - startAngle)|`, PROVIDED the radius
set by the second click is nonzero and the start angle set by the third
click is nonzero — the sub-state machine tests `sectorRadius === 0` and
`sectorStartAngle === 0`, so a zero value makes the corresponding click
repeat its step instead of advancing. -/
theorem C3_sector_four_clicks (s : MapState) (c1 c2 c3 c4 : ℝ × ℝ)
    (hm : s.drawMode = DrawMode.sector) (hc : s.sectorCenter = Option.none)
    (hr0 : s.sectorRadius = 0) (ha0 : s.sectorStartAngle = 0)
    (hr : ¬(Real.sqrt ((c2.1 - c1.1) ^ 2 + (c2.2 - c1.2) ^ 2) = 0))
    (ha : ¬(atan2 (c3.2 - c1.2) (c3.1 - c1.1) = 0)) :
    (handleMapClick s c1).sectorCenter = some c1 ∧
    (handleMapClick (handleMapClick s c1) c2).sectorRadius =
      Real.sqrt ((c2.1 - c1.1) ^ 2 + (c2.2 - c1.2) ^ 2) ∧
    (handleMapClick (handleMapClick (handleMapClick s c1) c2) c3).sectorStartAngle =
      atan2 (c3.2 - c1.2) (c3.1 - c1.1) ∧
    handleMapClick (handleMapClick (handleMapClick (handleMapClick s c1) c2) c3) c4 =
      { s with
        layers := s.layers ++
          [{ id := s.layers.length, type := LayerType.sector,
             data := [LayerItem.polygon (createSectorPolygon c1
               (Real.sqrt ((c2.1 - c1.1) ^ 2 + (c2.2 - c1.2) ^ 2))
               (atan2 (c3.2 - c1.2) (c3.1 - c1.1))
               (atan2 (c4.2 - c1.2) (c4.1 - c1.1)))],
             visible := true,
             measurement := some |(atan2 (c4.2 - c1.2) (c4.1 - c1.1) -
               atan2 (c3.2 - c1.2) (c3.1 - c1.1)) * 180 / π|,
             isUploaded := false }],
        sectorCenter := Option.none, sectorRadius := 0, sectorStartAngle := 0,
        drawMode := DrawMode.none } := by
  have h1 : handleMapClick s c1 = { s with sectorCenter := some c1 } := by
    simp only [handleMapClick, hm, hc]
  have h2 : handleMapClick { s with sectorCenter := some c1 } c2 =
      { s with
        sectorCenter := some c1,
        sectorRadius := Real.sqrt ((c2.1 - c1.1) ^ 2 + (c2.2 - c1.2) ^ 2) } := by
    simp only [handleMapClick, hm, hr0, if_true]
  have h3 : handleMapClick
      { s with
        sectorCenter := some c1,
        sectorRadius := Real.sqrt ((c2.1 - c1.1) ^ 2 + (c2.2 - c1.2) ^ 2) } c3 =
      { s with
        sectorCenter := some c1,
        sectorRadius := Real.sqrt ((c2.1 - c1.1) ^ 2 + (c2.2 - c1.2) ^ 2),
        sectorStartAngle := atan2 (c3.2 - c1.2) (c3.1 - c1.1) } := by
    simp only [handleMapClick, hm]
    rw [if_neg hr]
    simp only [ha0, if_true]
  have h4 : handleMapClick
      { s with
        sectorCenter := some c1,
        sectorRadius := Real.sqrt ((c2.1 - c1.1) ^ 2 + (c2.2 - c1.2) ^ 2),
        sectorStartAngle := atan2 (c3.2 - c1.2) (c3.1 - c1.1) } c4 =
      { s with
        layers := s.layers ++
          [{ id := s.layers.length, type := LayerType.sector,
             data := [LayerItem.polygon (createSectorPolygon c1
               (Real.sqrt ((c2.1 - c1.1) ^ 2 + (c2.2 - c1.2) ^ 2))
               (atan2 (c3.2 - c1.2) (c3.1 - c1.1))
               (atan2 (c4.2 - c1.2) (c4.1 - c1.1)))],
             visible := true,
             measurement := some |(atan2 (c4.2 - c1.2) (c4.1 - c1.1) -
               atan2 (c3.2 - c1.2) (c3.1 - c1.1)) * 180 / π|,
             isUploaded := false }],
        sectorCenter := Option.none, sectorRadius := 0, sectorStartAngle := 0,
        drawMode := DrawMode.none } := by
    simp only [handleMapClick, hm]
    rw [if_neg hr, if_neg ha]
  rw [h1, h2, h3, h4]
  exact ⟨rfl, rfl, rfl, rfl⟩

/-- C3 witness: the concrete run center `(0,0)`, radius click `(1,0)`
(radius 1), start-angle click `(0,2)` (angle `π/2 ≠ 0`), end click `(-1,0)`
commits and resets the mode. -/
theorem C3_sector_four_clicks_witness :
    ¬(Real.sqrt (((1:ℝ) - 0) ^ 2 + ((0:ℝ) - 0) ^ 2) = 0) ∧
    ¬(atan2 ((2:ℝ) - 0) ((0:ℝ) - 0) = 0) ∧
    (handleMapClick (handleMapClick (handleMapClick (handleMapClick
      { drawMode := DrawMode.sector, drawingPoints := [],
        sectorCenter := Option.none, sectorRadius := 0, sectorStartAngle := 0,
        layers := [], zoom := 5 }
      ((0:ℝ), (0:ℝ))) ((1:ℝ), (0:ℝ))) ((0:ℝ), (2:ℝ))) ((-1:ℝ), (0:ℝ))).drawMode =
      DrawMode.none := by
  have hrne : ¬(Real.sqrt (((1:ℝ) - 0) ^ 2 + ((0:ℝ) - 0) ^ 2) = 0) := by
    rw [cex_radius_one]
    norm_num
  have hane : ¬(atan2 ((2:ℝ) - 0) ((0:ℝ) - 0) = 0) := by
    rw [show ((2:ℝ) - 0) = 2 by norm_num, show ((0:ℝ) - 0) = 0 by norm_num]
    show ¬(Complex.arg ⟨0, 2⟩ = 0)
    have h02 : (⟨0, 2⟩ : ℂ) = ((2:ℝ) : ℂ) * Complex.I := by
      apply Complex.ext <;> simp
    rw [h02, Complex.arg_real_mul Complex.I (by norm_num), Complex.arg_I]
    have := Real.pi_pos
    intro hcontra
    linarith
  refine ⟨hrne, hane, ?_⟩
  rw [(C3_sector_four_clicks
    { drawMode := DrawMode.sector, drawingPoints := [],
      sectorCenter := Option.none, sectorRadius := 0, sectorStartAngle := 0,
      layers := [], zoom := 5 }
    ((0:ℝ), (0:ℝ)) ((1:ℝ), (0:ℝ)) ((0:ℝ), (2:ℝ)) ((-1:ℝ), (0:ℝ))
    rfl rfl rfl rfl hrne hane).2.2.2]

/-- C5: every polygon or area layer committed by a drawing-session click has
a non-empty ring whose first and last coordinates are identical (both equal
`drawingPoints[0]`); and concretely, drawing `[(0,0), (1,0), (1,1), (0,1)]`
in polygon mode at zoom 5 and clicking `(0.01, 0)` (within the `0.05`
tolerance of `(0,0)`) commits a polygon layer whose ring starts and ends at
exactly `(0, 0)`. -/
theorem C5_ring_first_eq_last (s : MapState) (c : ℝ × ℝ)
    (hm : s.drawMode = DrawMode.polygon ∨ s.drawMode = DrawMode.area) :
    ((handleMapClick s c).layers = s.layers ∨
      ∃ L ring, (handleMapClick s c).layers = s.layers ++ [L] ∧
        L.data = [LayerItem.polygon ring] ∧ ring ≠ [] ∧
        ring.head? = some s.drawingPoints.headI ∧
        ring.getLast? = some s.drawingPoints.headI) ∧
    (∃ L ring,
      (handleMapClick
        { drawMode := DrawMode.polygon,
          drawingPoints := [((0:ℝ),(0:ℝ)), ((1:ℝ),(0:ℝ)), ((1:ℝ),(1:ℝ)),
            ((0:ℝ),(1:ℝ))],
          sectorCenter := Option.none, sectorRadius := 0, sectorStartAngle := 0,
          layers := [], zoom := 5 } ((0.01:ℝ), (0:ℝ))).layers = [L] ∧
      L.type = LayerType.polygon ∧ L.data = [LayerItem.polygon ring] ∧
      ring.head? = some ((0:ℝ), (0:ℝ)) ∧
      ring.getLast? = some ((0:ℝ), (0:ℝ))) := by
  constructor
  · by_cases hlen : 2 ≤ s.drawingPoints.length
    · have hne : s.drawingPoints ≠ [] := by
        intro h0
        rw [h0] at hlen
        simp at hlen
      by_cases hclose : Real.sqrt ((c.1 - s.drawingPoints.headI.1) ^ 2 +
          (c.2 - s.drawingPoints.headI.2) ^ 2) <
          0.05 * max 0.1 (1 / (2:ℝ) ^ (s.zoom - 5))
      · right
        obtain ⟨hhead, hlast⟩ :=
          closed_ring_head_last s.drawingPoints c s.drawingPoints.headI hne
        rcases hm with hm | hm
        · exact ⟨_, _, by rw [handleMapClick_polygon_close s c hm hlen hclose],
            rfl, by simp, hhead, hlast⟩
        · exact ⟨_, _, by rw [handleMapClick_area_close s c hm hlen hclose],
            rfl, by simp, hhead, hlast⟩
      · left
        rcases hm with hm | hm
        · rw [handleMapClick_polygon_far s c hm hlen (not_lt.mp hclose)]
        · rw [handleMapClick_area_far s c hm hlen (not_lt.mp hclose)]
    · left
      rcases hm with hm | hm <;>
        · simp only [handleMapClick, hm]
          rw [if_neg hlen]
  · have hclose : Real.sqrt (((0.01:ℝ) - 0) ^ 2 + ((0:ℝ) - 0) ^ 2) <
        0.05 * max 0.1 (1 / (2:ℝ) ^ ((5:ℝ) - 5)) := by
      rw [cex_click_distance, tolerance_at_zoom_five]
      norm_num
    refine ⟨{ id := 0, type := LayerType.polygon,
              data := [LayerItem.polygon
                (([((0:ℝ),(0:ℝ)), ((1:ℝ),(0:ℝ)), ((1:ℝ),(1:ℝ)), ((0:ℝ),(1:ℝ))] ++
                  [((0.01:ℝ), (0:ℝ))]) ++ [((0:ℝ),(0:ℝ))])],
              visible := true, measurement := Option.none, isUploaded := false },
      (([((0:ℝ),(0:ℝ)), ((1:ℝ),(0:ℝ)), ((1:ℝ),(1:ℝ)), ((0:ℝ),(1:ℝ))] ++
        [((0.01:ℝ), (0:ℝ))]) ++ [((0:ℝ),(0:ℝ))]), ?_, rfl, rfl, rfl, rfl⟩
    rw [handleMapClick_polygon_close
      { drawMode := DrawMode.polygon,
        drawingPoints := [((0:ℝ),(0:ℝ)), ((1:ℝ),(0:ℝ)), ((1:ℝ),(1:ℝ)),
          ((0:ℝ),(1:ℝ))],
        sectorCenter := Option.none, sectorRadius := 0, sectorStartAngle := 0,
        layers := [], zoom := 5 } ((0.01:ℝ), (0:ℝ)) rfl (by norm_num) hclose]
    rfl

/-- C5 witness: the universal part applied to the concrete polygon session
(with the mode hypothesis discharged), yielding the committed concrete
layer. -/
theorem C5_ring_first_eq_last_witness :
    (DrawMode.polygon = DrawMode.polygon ∨ DrawMode.polygon = DrawMode.area) ∧
    (∃ L ring,
      (handleMapClick
        { drawMode := DrawMode.polygon,
          drawingPoints := [((0:ℝ),(0:ℝ)), ((1:ℝ),(0:ℝ)), ((1:ℝ),(1:ℝ)),
            ((0:ℝ),(1:ℝ))],
          sectorCenter := Option.none, sectorRadius := 0, sectorStartAngle := 0,
          layers := [], zoom := 5 } ((0.01:ℝ), (0:ℝ))).layers = [L] ∧
      L.type = LayerType.polygon ∧ L.data = [LayerItem.polygon ring] ∧
      ring.head? = some ((0:ℝ), (0:ℝ)) ∧
      ring.getLast? = some ((0:ℝ), (0:ℝ))) :=
  ⟨Or.inl rfl,
    (C5_ring_first_eq_last
      { drawMode := DrawMode.polygon,
        drawingPoints := [((0:ℝ),(0:ℝ)), ((1:ℝ),(0:ℝ)), ((1:ℝ),(1:ℝ)),
          ((0:ℝ),(1:ℝ))],
        sectorCenter := Option.none, sectorRadius := 0, sectorStartAngle := 0,
        layers := [], zoom := 5 } ((0.01:ℝ), (0:ℝ)) (Or.inl rfl)).2⟩

/-- C10: on every render pass, at most the first 50 visible layers of the
store (in store order) contribute renderable primitives; the rendered list
agrees with the visible sublist on positions `0..49`, the visible layer at
any position `i ≥ 50` is not rendered (out of range of the rendered list),
yet it remains a member of the store. -/
theorem C10_deckUserLayers_slice (layers : List (Layer ℚ)) (i : ℕ) (h50 : 50 ≤ i) :
    (deckUserLayers layers).length ≤ 50 ∧
    (∀ j, j < 50 →
      (deckUserLayers layers)[j]? = (layers.filter (fun l => l.visible))[j]?) ∧
    (deckUserLayers layers)[i]? = Option.none ∧
    (∀ L, (layers.filter (fun l => l.visible))[i]? = some L → L ∈ layers) := by
  refine ⟨?_, ?_, ?_, ?_⟩
  · rw [deckUserLayers, List.length_take]
    exact min_le_left ..
  · intro j hj
    simp only [deckUserLayers]
    rw [List.getElem?_take, if_pos hj]
  · apply List.getElem?_eq_none
    calc (deckUserLayers layers).length ≤ 50 := by
          rw [deckUserLayers, List.length_take]
          exact min_le_left ..
      _ ≤ i := h50
  · intro L hL
    obtain ⟨hlt, rfl⟩ := List.getElem?_eq_some.mp hL
    exact (List.mem_filter.mp (List.getElem_mem ..)).1

/-- C10 witness: a store of 51 identical visible layers; position 50 of the
visible sublist is not rendered. -/
theorem C10_deckUserLayers_slice_witness :
    (50 ≤ 50) ∧
    (deckUserLayers (List.replicate 51
      { id := 0, type := LayerType.point, data := [], visible := true,
        measurement := Option.none, isUploaded := false }))[50]? = Option.none :=
  ⟨by decide,
    (C10_deckUserLayers_slice (List.replicate 51
      { id := 0, type := LayerType.point, data := [], visible := true,
        measurement := Option.none, isUploaded := false }) 50 (by decide)).2.2.1⟩

/-- C9: an absent, non-array, or empty feed payload produces no overlay (and
the total function raises no error); a non-empty array payload produces an
overlay whose item `i` is built positionally from record `i`. -/
theorem C9_networkNodesLayer_alignment (st : NetworkLayerState) :
    networkNodesLayer SocketPayload.absent st = Option.none ∧
    networkNodesLayer SocketPayload.nonArray st = Option.none ∧
    networkNodesLayer (SocketPayload.arr []) st = Option.none ∧
    ∀ nodes : List NetworkNode, nodes ≠ [] →
      ∃ L, networkNodesLayer (SocketPayload.arr nodes) st = some L ∧
        L.data.length = nodes.length ∧
        ∀ i : ℕ, L.data[i]? = (nodes[i]?).map (fun node =>
          { position := (node.longitude, node.latitude), node := node : NetworkItem }) := by
  refine ⟨rfl, rfl, rfl, ?_⟩
  intro nodes hne
  have hlen : 0 < nodes.length := List.length_pos.mpr hne
  have heq : networkNodesLayer (SocketPayload.arr nodes) st =
      some { data := nodes.map (fun node =>
               { position := (node.longitude, node.latitude), node := node }),
             visible := st.visible, radius := st.radius,
             pointDisplayMode := st.pointDisplayMode,
             iconType := st.iconType, isUploaded := false } := by
    simp only [networkNodesLayer]
    rw [if_pos hlen]
  refine ⟨_, heq, by simp, fun i => by simp⟩

/-- C9 witness: a one-record feed produces an overlay with that record at
index 0. -/
theorem C9_networkNodesLayer_alignment_witness :
    ([({ id := 1, longitude := 10, latitude := 20, snr := 25 } : NetworkNode)] ≠
      ([] : List NetworkNode)) ∧
    ∃ L, networkNodesLayer
        (SocketPayload.arr [{ id := 1, longitude := 10, latitude := 20, snr := 25 }])
        { visible := true, radius := 15, pointDisplayMode := PointDisplayMode.icon,
          iconType := IconKind.marker } = some L ∧
      L.data.length = 1 ∧
      ∀ i : ℕ, L.data[i]? =
        (([({ id := 1, longitude := 10, latitude := 20, snr := 25 } : NetworkNode)])[i]?).map
          (fun node => { position := (node.longitude, node.latitude), node := node }) :=
  ⟨by decide,
    (C9_networkNodesLayer_alignment _).2.2.2 _ (by decide)⟩

/-- C6: drag-translate computes the dragged layer's geometry from the
snapshot taken at gesture start, displaced by `current - start`; hence
replaying the same move event twice yields exactly the state of a single
application, for every state of the drag engine. -/
theorem C6_handleDrag_idempotent (st : DragAppState) (c : ℚ × ℚ) :
    handleDrag (handleDrag st c) c = handleDrag st c ∧
    (∀ lid sp orig l₀,
      st.isDragging = true → st.draggedLayerId = some lid →
      st.dragStartPosition = some sp → st.originalLayerData = some orig →
      st.layers.find? (fun l => l.id == lid) = some l₀ →
      (handleDrag st c).layers = st.layers.map (fun l =>
        if l.id == lid then
          { l with data := orig.map (translateItem l.type (c.1 - sp.1) (c.2 - sp.2)) }
        else l)) := by
  obtain ⟨layers, isDragging, dlid, dsp, odata⟩ := st
  constructor
  · match isDragging, dlid, dsp, odata with
    | false, _, _, _ => rfl
    | true, Option.none, _, _ => rfl
    | true, some _, Option.none, _ => rfl
    | true, some _, some _, Option.none => rfl
    | true, some lid, some sp, some orig =>
      simp only [handleDrag]
      rcases hfind : layers.find? (fun l => l.id == lid) with _ | l₀
      · simp [hfind]
      · simp only [hfind]
        have hcomp :
            (fun l : Layer ℚ => l.id == lid) ∘ (fun l : Layer ℚ =>
              if l.id == lid then
                { l with data :=
                    orig.map (translateItem l.type (c.1 - sp.1) (c.2 - sp.2)) }
              else l) = fun l : Layer ℚ => l.id == lid := by
          funext l
          by_cases h : l.id = lid <;> simp [h]
        rw [List.find?_map, hcomp, hfind]
        simp only [Option.map_some']
        rw [List.map_map]
        have hfun : (fun l : Layer ℚ =>
            if l.id == lid then
              { l with data :=
                  orig.map (translateItem l.type (c.1 - sp.1) (c.2 - sp.2)) }
            else l) ∘ (fun l : Layer ℚ =>
            if l.id == lid then
              { l with data :=
                  orig.map (translateItem l.type (c.1 - sp.1) (c.2 - sp.2)) }
            else l) = (fun l : Layer ℚ =>
            if l.id == lid then
              { l with data :=
                  orig.map (translateItem l.type (c.1 - sp.1) (c.2 - sp.2)) }
            else l) := by
          funext l
          by_cases h : l.id = lid
          · simp [Function.comp_apply, h]
          · simp [Function.comp_apply, h]
        rw [hfun]
  · intro lid sp orig l₀ h1 h2 h3 h4 hfind
    simp only at h1 h2 h3 h4
    subst h1 h2 h3 h4
    simp only [handleDrag, hfind]

/-- C6 witness: the drag theorem applied to a concrete dragging state (one
drawn point layer, snapshot `[(1,2)]`, gesture start `(0,0)`, current
pointer `(3,4)`). -/
theorem C6_handleDrag_idempotent_witness :
    (handleDrag
      { layers :=
          [{ id := 7, type := LayerType.point,
             data := [LayerItem.position ((1:ℚ),(2:ℚ))], visible := true,
             measurement := Option.none, isUploaded := false }],
        isDragging := true, draggedLayerId := some 7,
        dragStartPosition := some ((0:ℚ),(0:ℚ)),
        originalLayerData := some [LayerItem.position ((1:ℚ),(2:ℚ))] }
      ((3:ℚ),(4:ℚ))).layers =
      [({ id := 7, type := LayerType.point,
          data := [LayerItem.position ((1:ℚ),(2:ℚ))], visible := true,
          measurement := Option.none, isUploaded := false } : Layer ℚ)].map (fun l =>
        if l.id == 7 then
          { l with
            data := [LayerItem.position ((1:ℚ),(2:ℚ))].map
              (translateItem l.type ((3:ℚ) - 0) ((4:ℚ) - 0)) }
        else l) :=
  (C6_handleDrag_idempotent
    { layers :=
        [{ id := 7, type := LayerType.point,
           data := [LayerItem.position ((1:ℚ),(2:ℚ))], visible := true,
           measurement := Option.none, isUploaded := false }],
      isDragging := true, draggedLayerId := some 7,
      dragStartPosition := some ((0:ℚ),(0:ℚ)),
      originalLayerData := some [LayerItem.position ((1:ℚ),(2:ℚ))] }
    ((3:ℚ),(4:ℚ))).2 7 ((0:ℚ),(0:ℚ)) [LayerItem.position ((1:ℚ),(2:ℚ))]
    { id := 7, type := LayerType.point,
      data := [LayerItem.position ((1:ℚ),(2:ℚ))], visible := true,
      measurement := Option.none, isUploaded := false }
    rfl rfl rfl rfl rfl

end Theorems
